import Mathlib

/-!
Shallow embedding of the wisecalk-backend data model and operations:

* `UserSyncService.syncUser` and `UserSyncService.createDefaultCategories`
  (src/unnamed/part_002) over an explicit database state;
* `JwtStrategy.validate` (src/src/infrastructure/auth/strategies/jwt.strategy.ts);
* `AppService.getDbHealth` (src/src/app.controller.ts);
* the exchange-rate upsert of the seed script (src/unnamed/part_001);
* the schema-level constraints of
  src/prisma/migrations/20250923235107_init/migration.sql
  (unique indexes, ON DELETE SET NULL foreign key).

JavaScript `a || b` on string claims treats `undefined`, `null` and the empty
string as falsy; optional string claims are modelled as `Option String` with
`some ""` falsy.  Generated row ids (cuid strings in the source) are modelled
by a fresh-id counter.  The `created_at`/`updated_at` bookkeeping timestamps
are managed by the ORM and are not part of the model.
-/

/-- JavaScript `a || b` where `a` is an optional string claim and `b` is a
plain string default: `undefined` and `""` fall through to the default. -/
def jsOrStr (a : Option String) (b : String) : String :=
  match a with
  | some s => if s == "" then b else s
  | none => b

/-- JavaScript `a || b` where both operands are optional strings. -/
def jsOrOpt (a b : Option String) : Option String :=
  match a with
  | some s => if s == "" then b else some s
  | none => b

/-- The `CategoryType` enum of the schema. -/
inductive CategoryType where
  | INCOME
  | EXPENSE
  | TRANSFER
deriving BEq, DecidableEq, Repr

/-- One row of the `categories` table, restricted to the columns written by
`createDefaultCategories` plus the columns of the unique index
`categories_user_id_name_parent_id_key`. -/
structure Category where
  name : String
  ctype : CategoryType
  color : String
  icon : String
  description : String
  userId : Nat
  parentId : Option Nat
deriving BEq, DecidableEq, Repr

/-- One entry of the `defaultCategories` literal inside
`UserSyncService.createDefaultCategories`. -/
structure DefaultCategorySpec where
  name : String
  ctype : CategoryType
  color : String
  icon : String
deriving BEq, DecidableEq, Repr

/-- The seventeen-element `defaultCategories` array of
`UserSyncService.createDefaultCategories`, verbatim from the source. -/
def defaultCategories : List DefaultCategorySpec :=
  [ { name := "Salary", ctype := .INCOME, color := "#4CAF50", icon := "wallet" },
    { name := "Freelance", ctype := .INCOME, color := "#8BC34A", icon := "briefcase" },
    { name := "Investments", ctype := .INCOME, color := "#CDDC39", icon := "trending-up" },
    { name := "Other Income", ctype := .INCOME, color := "#FFC107", icon := "plus-circle" },
    { name := "Food & Dining", ctype := .EXPENSE, color := "#FF5722", icon := "utensils" },
    { name := "Transportation", ctype := .EXPENSE, color := "#795548", icon := "car" },
    { name := "Shopping", ctype := .EXPENSE, color := "#E91E63", icon := "shopping-cart" },
    { name := "Entertainment", ctype := .EXPENSE, color := "#9C27B0", icon := "music" },
    { name := "Bills & Utilities", ctype := .EXPENSE, color := "#673AB7", icon := "receipt" },
    { name := "Healthcare", ctype := .EXPENSE, color := "#3F51B5", icon := "heart" },
    { name := "Education", ctype := .EXPENSE, color := "#2196F3", icon := "book" },
    { name := "Home", ctype := .EXPENSE, color := "#00BCD4", icon := "home" },
    { name := "Personal", ctype := .EXPENSE, color := "#009688", icon := "user" },
    { name := "Other Expenses", ctype := .EXPENSE, color := "#607D8B", icon := "ellipsis" },
    { name := "Transfer", ctype := .TRANSFER, color := "#9E9E9E", icon := "exchange" } ]

/-- Conflict test of the unique index `categories_user_id_name_parent_id_key`
between an existing row `a` and a candidate row `b`.  PostgreSQL unique
indexes treat NULL values as distinct, so two rows whose `parent_id` is NULL
never conflict with each other. -/
def categoryKeyConflict (a b : Category) : Bool :=
  a.userId == b.userId && a.name == b.name &&
    (match a.parentId, b.parentId with
     | some p, some q => p == q
     | _, _ => false)

/-- Model of `prisma.category.createMany({..., skipDuplicates: true})`, which
issues `INSERT ... ON CONFLICT DO NOTHING`: the candidate rows are processed
in order, and each is inserted unless a row already in the table conflicts
with it on a unique index. -/
def createManyCategories (existing : List Category) : List Category → List Category
  | [] => existing
  | row :: rest =>
    if existing.any (fun c => categoryKeyConflict c row) then
      createManyCategories existing rest
    else
      createManyCategories (existing ++ [row]) rest

/-- One row of the `users` table, restricted to the columns touched by
`UserSyncService.syncUser`, the unique identity column `auth0_id`, and the
soft-delete marker.  Generated cuid ids are modelled as naturals. -/
structure User where
  id : Nat
  auth0Id : String
  email : String
  firstName : Option String
  lastName : Option String
  timezone : String
  locale : String
  deletedAt : Option Nat
deriving BEq, DecidableEq, Repr

/-- The claims payload handed to `syncUser` and `JwtStrategy.validate`.
String-valued claims are optional (`undefined` modelled as `none`); the
namespaced roles claim and the permissions claim are optional lists. -/
structure TokenPayload where
  sub : Option String
  email : Option String
  given_name : Option String
  family_name : Option String
  name : Option String
  zoneinfo : Option String
  locale : Option String
  roles : Option (List String)
  permissions : Option (List String)
  scope : Option String
deriving BEq, DecidableEq, Repr

/-- The database state visible to the user-sync service: the `users` and
`categories` tables, plus a fresh-id counter modelling generated row ids. -/
structure Db where
  users : List User
  categories : List Category
  nextId : Nat
deriving Repr

/-- Well-formedness of a database state: user ids are pairwise distinct and
below the fresh-id counter, and every category row belongs to an already
allocated user id (the `categories_user_id_fkey` foreign key). -/
def Db.wf (db : Db) : Prop :=
  (db.users.map (fun u => u.id)).Nodup ∧
  (∀ u ∈ db.users, u.id < db.nextId) ∧
  (∀ c ∈ db.categories, c.userId < db.nextId)

/-- The `data` block of the `prisma.user.create` call in the create branch of
`syncUser`: email falls back to the synthesized placeholder, the name fields
fall back to splitting the full-name claim on spaces, timezone and locale
fall back to fixed defaults. -/
def createUserData (auth0Id : String) (p : TokenPayload) (uid : Nat) : User :=
  { id := uid
    auth0Id := auth0Id
    email := jsOrStr p.email (auth0Id ++ "@wisecalk.com")
    firstName := jsOrOpt p.given_name (p.name.map (fun n => (n.splitOn " ").headD ""))
    lastName := jsOrOpt p.family_name
      (p.name.map (fun n => String.intercalate " " ((n.splitOn " ").drop 1)))
    timezone := jsOrStr p.zoneinfo "UTC"
    locale := jsOrStr p.locale "en-US"
    deletedAt := none }

/-- The `data` block of the `prisma.user.update` call in the update branch of
`syncUser`: each mutable field takes the claim when truthy and otherwise
keeps the stored value; no other column appears in the update. -/
def updateUserData (u : User) (p : TokenPayload) : User :=
  { u with
    email := jsOrStr p.email u.email
    firstName := jsOrOpt p.given_name u.firstName
    lastName := jsOrOpt p.family_name u.lastName
    timezone := jsOrStr p.zoneinfo u.timezone
    locale := jsOrStr p.locale u.locale }

/-- The rows handed to `createMany` by `createDefaultCategories` for a given
user: the default catalog with the user id attached, a generated description,
and no parent. -/
def defaultCategoryRows (userId : Nat) : List Category :=
  defaultCategories.map (fun c =>
    { name := c.name
      ctype := c.ctype
      color := c.color
      icon := c.icon
      description := "Default " ++ c.name ++ " category"
      userId := userId
      parentId := none })

/-- Model of `UserSyncService.createDefaultCategories`: a single duplicate-skipping
`createMany` of the default catalog for the given user. -/
def createDefaultCategories (db : Db) (userId : Nat) : Db :=
  { db with categories := createManyCategories db.categories (defaultCategoryRows userId) }

/-- Model of `UserSyncService.syncUser` on the success path: look the user up by
`auth0Id`; create it (and seed the default categories) when absent, update
the mutable fields when present. -/
def syncUser (db : Db) (auth0Id : String) (p : TokenPayload) : Db × User :=
  match db.users.find? (fun u => u.auth0Id == auth0Id) with
  | none =>
    let u := createUserData auth0Id p db.nextId
    let db1 : Db := { db with users := db.users ++ [u], nextId := db.nextId + 1 }
    (createDefaultCategories db1 u.id, u)
  | some u =>
    let u2 := updateUserData u p
    ({ db with users := db.users.map (fun v => if v.id == u.id then u2 else v) }, u2)

/-- The session object built by `JwtStrategy.validate` from the validated
claims and the synchronized user. -/
structure Session where
  userId : Nat
  auth0Id : String
  email : Option String
  roles : List String
  permissions : List String
  scope : Option String
deriving BEq, DecidableEq, Repr

/-- Model of `JwtStrategy.validate`: reject payloads whose `sub` claim is falsy before
touching the database, otherwise synchronize the user and build the session
object.  The state is threaded explicitly so that the thrown
`UnauthorizedException` demonstrably leaves the database unchanged. -/
def JwtStrategy.validate (p : TokenPayload) (db : Db) : Db × Except String Session :=
  match p.sub with
  | none => (db, Except.error "Invalid token structure")
  | some s =>
    if s == "" then (db, Except.error "Invalid token structure")
    else
      let r := syncUser db s p
      (r.1, Except.ok
        { userId := r.2.id
          auth0Id := s
          email := p.email
          roles := p.roles.getD []
          permissions := p.permissions.getD []
          scope := p.scope })

/-- The structured `database` sub-object returned by `AppService.getDbHealth`
(the optional fields mirror `DatabaseHealthDto`). -/
structure DatabaseHealth where
  connected : Bool
  users : Option Nat
  currencies : Option Nat
  error : Option String
deriving BEq, DecidableEq, Repr

/-- The response object returned by `AppService.getDbHealth`
(mirrors `DatabaseHealthResponseDto`). -/
structure DatabaseHealthResponse where
  status : String
  timestamp : String
  database : DatabaseHealth
  message : String
deriving BEq, DecidableEq, Repr

/-- Model of `AppService.getDbHealth`: the two count queries run in order inside a
`try`; the results of the underlying queries are passed in as `Except`
values (an `error` is a thrown exception carrying its message).  Any failure
is caught and converted into the structured error payload. -/
def getDbHealth (timestamp : String) (userCount currencyCount : Except String Nat) :
    DatabaseHealthResponse :=
  match userCount with
  | Except.error e =>
    { status := "error"
      timestamp := timestamp
      database := { connected := false, users := none, currencies := none, error := some e }
      message := "Database connection failed!" }
  | Except.ok u =>
    match currencyCount with
    | Except.error e =>
      { status := "error"
        timestamp := timestamp
        database := { connected := false, users := none, currencies := none, error := some e }
        message := "Database connection failed!" }
    | Except.ok c =>
      { status := "ok"
        timestamp := timestamp
        database := { connected := true, users := some u, currencies := some c, error := none }
        message := "Database connection is healthy!" }

/-- One row of the `exchange_rates` table, restricted to the columns of the
unique index `exchange_rates_from_currency_id_to_currency_id_date_key` plus
the rate.  `DECIMAL(18,8)` values are modelled as rationals; dates as
naturals. -/
structure ExchangeRate where
  fromCurrencyId : Nat
  toCurrencyId : Nat
  rate : Rat
  date : Nat
deriving DecidableEq, Repr

/-- Equality on the `(from_currency_id, to_currency_id, date)` triple of the
unique index (all three columns are NOT NULL). -/
def sameTriple (a b : ExchangeRate) : Bool :=
  a.fromCurrencyId == b.fromCurrencyId && a.toCurrencyId == b.toCurrencyId && a.date == b.date

/-- A plain `INSERT` into `exchange_rates`: rejected by the unique index when
a row with the same triple is already present. -/
def insertExchangeRate (db : List ExchangeRate) (r : ExchangeRate) :
    Option (List ExchangeRate) :=
  if db.any (fun s => sameTriple s r) then none else some (db ++ [r])

/-- The `prisma.exchangeRate.upsert` of the seed script: update the `rate` of
the row with the same triple when present, create the row otherwise. -/
def upsertExchangeRate (db : List ExchangeRate) (r : ExchangeRate) : List ExchangeRate :=
  if db.any (fun s => sameTriple s r) then
    db.map (fun s => if sameTriple s r then { s with rate := r.rate } else s)
  else db ++ [r]

/-- No two rows of the table share the `(from, to, date)` triple. -/
def tripleUnique (db : List ExchangeRate) : Prop :=
  db.Pairwise (fun a b => sameTriple a b = false)

/-- Every stored rate is strictly positive. -/
def ratesPositive (db : List ExchangeRate) : Prop :=
  ∀ r ∈ db, 0 < r.rate

/-- The four example rates written by the seed script (src/unnamed/part_001),
parameterized by the ids of the USD, EUR and BRL rows and the normalized
current date. -/
def seedExchangeRates (usdId eurId brlId today : Nat) : List ExchangeRate :=
  [ { fromCurrencyId := usdId, toCurrencyId := eurId, rate := 92 / 100, date := today },
    { fromCurrencyId := eurId, toCurrencyId := usdId, rate := 109 / 100, date := today },
    { fromCurrencyId := usdId, toCurrencyId := brlId, rate := 505 / 100, date := today },
    { fromCurrencyId := brlId, toCurrencyId := usdId, rate := 20 / 100, date := today } ]

/-- The `TransactionType` enum of the schema. -/
inductive TransactionType where
  | INCOME
  | EXPENSE
  | TRANSFER
deriving BEq, DecidableEq, Repr

/-- One row of the `transactions` table, restricted to the primary key, the
type column and the self-referential `transfer_to_id` column governed by the
unique index `transactions_transfer_to_id_key`. -/
structure Transaction where
  id : Nat
  ttype : TransactionType
  transferToId : Option Nat
deriving BEq, DecidableEq, Repr

/-- Insert of one transaction row, subject to the primary key and to the
unique index `transactions_transfer_to_id_key`: rejected when another row
already carries the same id or the same non-null `transfer_to_id`. -/
def insertTransaction (db : List Transaction) (t : Transaction) :
    Option (List Transaction) :=
  if db.any (fun s => s.id == t.id) then none
  else if t.transferToId.isSome && db.any (fun s => s.transferToId == t.transferToId) then none
  else some (db ++ [t])

/-- Effect of the foreign key `transactions_transfer_to_id_fkey` (ON DELETE
SET NULL) on a surviving row when the row `tid` is deleted. -/
def nullifyTransferRef (tid : Nat) (t : Transaction) : Transaction :=
  if t.transferToId == some tid then { t with transferToId := none } else t

/-- Delete of the transaction row `tid`: the target row disappears and every
row that referenced it keeps existing with its reference nulled (no
cascade). -/
def deleteTransaction (db : List Transaction) (tid : Nat) : List Transaction :=
  (db.filter (fun t => t.id != tid)).map (nullifyTransferRef tid)

/-- Database states of the `transactions` table reachable from the empty
table through constraint-checked inserts and deletes. -/
inductive TransactionReach : List Transaction → Prop where
  | empty : TransactionReach []
  | ins (db t db') : TransactionReach db → insertTransaction db t = some db' →
      TransactionReach db'
  | del (db tid) : TransactionReach db → TransactionReach (deleteTransaction db tid)

/-- No two rows claim the same non-null `transfer_to_id`. -/
def uniqueTransferTo (db : List Transaction) : Prop :=
  db.Pairwise (fun a b => ∀ x, a.transferToId = some x → b.transferToId ≠ some x)

/-- Control-flow skeleton of `UserSyncService.createDefaultCategories` in the
presence of failures: the result of the underlying `createMany` call is
passed in as an `Except`; the `catch` block only logs and does not rethrow,
so the function never raises. -/
def createDefaultCategoriesResult (createManyRes : Except String Unit) : Except String Unit :=
  match createManyRes with
  | Except.ok _ => Except.ok ()
  | Except.error _ => Except.ok ()

/-- Control-flow skeleton of `UserSyncService.syncUser` in the presence of
failures: the results of the underlying `findUnique`, `create`, `update` and
`createMany` calls are passed in as `Except` values.  The `catch` block of
`syncUser` logs and rethrows, so a failure of the lookup, create or update
step propagates; the seeding step goes through
`createDefaultCategoriesResult`, which absorbs its failure. -/
def syncUserResult (findRes : Except String (Option User))
    (createRes updateRes : Except String User)
    (createManyRes : Except String Unit) : Except String User :=
  match findRes with
  | Except.error e => Except.error e
  | Except.ok none =>
    match createRes with
    | Except.error e => Except.error e
    | Except.ok u =>
      match createDefaultCategoriesResult createManyRes with
      | Except.error e => Except.error e
      | Except.ok _ => Except.ok u
  | Except.ok (some _) =>
    match updateRes with
    | Except.error e => Except.error e
    | Except.ok u => Except.ok u

/-- An all-absent claims payload, used to instantiate theorems on concrete
inputs. -/
def emptyTokenPayload : TokenPayload :=
  { sub := none, email := none, given_name := none, family_name := none,
    name := none, zoneinfo := none, locale := none, roles := none,
    permissions := none, scope := none }

/-- A concrete user record (the demo user of the seed script), used to
instantiate theorems on concrete inputs. -/
def demoSyncUser : User :=
  { id := 0, auth0Id := "auth0|demo123", email := "demo@wisecalk.com",
    firstName := some "Demo", lastName := some "User",
    timezone := "America/New_York", locale := "en-US", deletedAt := none }

/-- Closed form of the create branch of `syncUser`. -/
theorem syncUser_create_eq (db : Db) (a : String) (p : TokenPayload)
    (hfind : db.users.find? (fun u => u.auth0Id == a) = none) :
    syncUser db a p =
      ({ users := db.users ++ [createUserData a p db.nextId]
         categories := createManyCategories db.categories (defaultCategoryRows db.nextId)
         nextId := db.nextId + 1 }, createUserData a p db.nextId) := by
  unfold syncUser
  rw [hfind]
  rfl

/-- Closed form of the update branch of `syncUser`. -/
theorem syncUser_update_eq (db : Db) (a : String) (p : TokenPayload) (u : User)
    (hfind : db.users.find? (fun v => v.auth0Id == a) = some u) :
    syncUser db a p =
      ({ users := db.users.map (fun v => if v.id == u.id then updateUserData u p else v)
         categories := db.categories
         nextId := db.nextId }, updateUserData u p) := by
  unfold syncUser
  rw [hfind]

theorem updateUserData_id (u : User) (p : TokenPayload) :
    (updateUserData u p).id = u.id := rfl

theorem updateUserData_auth0Id (u : User) (p : TokenPayload) :
    (updateUserData u p).auth0Id = u.auth0Id := rfl

theorem updateUserData_deletedAt (u : User) (p : TokenPayload) :
    (updateUserData u p).deletedAt = u.deletedAt := rfl

theorem createUserData_auth0Id (a : String) (p : TokenPayload) (n : Nat) :
    (createUserData a p n).auth0Id = a := rfl

theorem createUserData_id (a : String) (p : TokenPayload) (n : Nat) :
    (createUserData a p n).id = n := rfl

/-- Replacing, by id, the first user found by an `auth0Id` lookup with a user
carrying the same `auth0Id` leaves the lookup finding the replacement. -/
theorem find?_map_replace (a : String) (u u2 : User) (hid : u2.auth0Id = u.auth0Id) :
    ∀ l : List User, l.find? (fun v => v.auth0Id == a) = some u →
      (l.map (fun v => if v.id == u.id then u2 else v)).find?
        (fun v => v.auth0Id == a) = some u2 := by
  intro l
  induction l with
  | nil => intro h; simp at h
  | cons v t ih =>
    intro hfind
    have hpu : (u.auth0Id == a) = true := by simpa using List.find?_some hfind
    have hpu2 : (u2.auth0Id == a) = true := by rw [hid]; exact hpu
    rw [List.map_cons]
    cases hv : v.auth0Id == a with
    | true =>
      simp only [List.find?_cons, hv] at hfind
      injection hfind with huv
      subst huv
      have hfv : (if v.id == v.id then u2 else v) = u2 := by simp
      rw [hfv]
      simp only [List.find?_cons, hpu2]
    | false =>
      simp only [List.find?_cons, hv] at hfind
      cases hvid : v.id == u.id with
      | true =>
        simp [List.find?_cons, hpu2]
      | false =>
        simpa [List.find?_cons, hv] using ih hfind

/-- C3: for every failure of the underlying count queries, `getDbHealth`
returns the structured failure object with status "error", connected false
and the error message, rather than throwing; when both count queries succeed
it returns status "ok" with connected true and the two counts. -/
theorem getDbHealth_structured_result (ts : String)
    (userCount currencyCount : Except String Nat) :
    (∀ e, userCount = Except.error e →
      getDbHealth ts userCount currencyCount =
        { status := "error", timestamp := ts
          database := { connected := false, users := none, currencies := none, error := some e }
          message := "Database connection failed!" }) ∧
    (∀ u e, userCount = Except.ok u → currencyCount = Except.error e →
      getDbHealth ts userCount currencyCount =
        { status := "error", timestamp := ts
          database := { connected := false, users := none, currencies := none, error := some e }
          message := "Database connection failed!" }) ∧
    (∀ u c, userCount = Except.ok u → currencyCount = Except.ok c →
      getDbHealth ts userCount currencyCount =
        { status := "ok", timestamp := ts
          database := { connected := true, users := some u, currencies := some c, error := none }
          message := "Database connection is healthy!" }) := by
  refine ⟨?_, ?_, ?_⟩ <;> intros <;> subst_vars <;> rfl

/-- Witness for C3: a concrete failing user-count query yields the structured
error payload. -/
theorem getDbHealth_structured_result_witness :
    getDbHealth "2025-01-01T00:00:00.000Z" (Except.error "connection refused") (Except.ok 8) =
      { status := "error", timestamp := "2025-01-01T00:00:00.000Z"
        database := { connected := false, users := none, currencies := none
                      error := some "connection refused" }
        message := "Database connection failed!" } :=
  (getDbHealth_structured_result "2025-01-01T00:00:00.000Z"
    (Except.error "connection refused") (Except.ok 8)).1 "connection refused" rfl

/-- C9: a token payload whose sub claim is absent or empty is rejected with
the UnauthorizedException before any user synchronization, leaving the
database unchanged; a payload with a non-empty sub yields the session object
whose fields are exactly userId, auth0Id, email, roles, permissions and
scope, with roles and permissions defaulting to the empty list. -/
theorem jwtStrategy_validate_spec (p : TokenPayload) (db : Db) :
    ((p.sub = none ∨ p.sub = some "") →
      JwtStrategy.validate p db = (db, Except.error "Invalid token structure")) ∧
    (∀ s, p.sub = some s → s ≠ "" →
      JwtStrategy.validate p db =
        ((syncUser db s p).1, Except.ok
          { userId := (syncUser db s p).2.id
            auth0Id := s
            email := p.email
            roles := p.roles.getD []
            permissions := p.permissions.getD []
            scope := p.scope })) := by
  constructor
  · rintro (h | h) <;> simp [JwtStrategy.validate, h]
  · intro s hs hne
    simp [JwtStrategy.validate, hs, hne]

/-- Witness for C9: the empty payload (no sub claim) is rejected and the
database is returned untouched. -/
theorem jwtStrategy_validate_spec_witness :
    JwtStrategy.validate emptyTokenPayload { users := [], categories := [], nextId := 0 } =
      ({ users := [], categories := [], nextId := 0 }, Except.error "Invalid token structure") :=
  (jwtStrategy_validate_spec emptyTokenPayload
    { users := [], categories := [], nextId := 0 }).1 (Or.inl rfl)

/-- C8 counterexample: with the lookup succeeding (no user present), the
create succeeding, and the `createMany` of the default-category seeding
failing with a persistence error, `syncUser` still returns the created user
instead of propagating the error — the catch inside
`createDefaultCategories` only logs. -/
theorem syncUser_seeding_error_swallowed :
    syncUserResult (Except.ok none) (Except.ok demoSyncUser) (Except.ok demoSyncUser)
        (Except.error "connection lost") = Except.ok demoSyncUser ∧
    (syncUserResult (Except.ok none) (Except.ok demoSyncUser) (Except.ok demoSyncUser)
        (Except.error "connection lost")).isOk = true :=
  ⟨rfl, rfl⟩

/-- C8 amended: persistence errors in the lookup, create and update steps of
`syncUser` propagate to the caller uncaught and unretried, but an error in
the default-category seeding step is caught and logged inside
`createDefaultCategories` and does not propagate: `syncUser` still returns
the created user. -/
theorem syncUser_error_propagation_amended
    (findRes : Except String (Option User)) (createRes updateRes : Except String User)
    (createManyRes : Except String Unit) :
    (∀ e, findRes = Except.error e →
      syncUserResult findRes createRes updateRes createManyRes = Except.error e) ∧
    (∀ e, findRes = Except.ok none → createRes = Except.error e →
      syncUserResult findRes createRes updateRes createManyRes = Except.error e) ∧
    (∀ u e, findRes = Except.ok (some u) → updateRes = Except.error e →
      syncUserResult findRes createRes updateRes createManyRes = Except.error e) ∧
    (∀ u, findRes = Except.ok none → createRes = Except.ok u →
      syncUserResult findRes createRes updateRes createManyRes = Except.ok u) := by
  refine ⟨?_, ?_, ?_, ?_⟩
  · intro e h; subst h; rfl
  · intro e h1 h2; subst h1; subst h2; rfl
  · intro u e h1 h2; subst h1; subst h2; rfl
  · intro u h1 h2; subst h1; subst h2; cases createManyRes <;> rfl

/-- Witness for C8 amended: a concrete failing lookup propagates its error. -/
theorem syncUser_error_propagation_amended_witness :
    syncUserResult (Except.error "database unavailable") (Except.ok demoSyncUser)
        (Except.ok demoSyncUser) (Except.ok ()) = Except.error "database unavailable" :=
  (syncUser_error_propagation_amended (Except.error "database unavailable")
    (Except.ok demoSyncUser) (Except.ok demoSyncUser) (Except.ok ())).1
    "database unavailable" rfl

theorem sameTriple_rate_update_left (a : ExchangeRate) (v : Rat) (x : ExchangeRate) :
    sameTriple { a with rate := v } x = sameTriple a x := rfl

theorem sameTriple_rate_update_right (x a : ExchangeRate) (v : Rat) :
    sameTriple x { a with rate := v } = sameTriple x a := rfl

/-- C5: writing twice with the same (from, to, date) triple never yields two
rows for the triple: under the unique index a plain insert of an existing
triple fails, the seed script's upsert updates the existing row in place
(the table does not grow), triple-uniqueness and rate-positivity are
preserved by the upsert, and every rate written by the seed script is
strictly positive. -/
theorem exchangeRate_unique_triple_positive (db : List ExchangeRate) (r : ExchangeRate)
    (h1 : tripleUnique db) (h2 : ratesPositive db) (h3 : 0 < r.rate) :
    tripleUnique (upsertExchangeRate db r) ∧
    ratesPositive (upsertExchangeRate db r) ∧
    (db.any (fun s => sameTriple s r) = true →
      (upsertExchangeRate db r).length = db.length) ∧
    (db.any (fun s => sameTriple s r) = true → insertExchangeRate db r = none) ∧
    (∀ usdId eurId brlId today,
      ∀ s ∈ seedExchangeRates usdId eurId brlId today, 0 < s.rate) := by
  have hseed : ∀ usdId eurId brlId today,
      ∀ s ∈ seedExchangeRates usdId eurId brlId today, 0 < s.rate := by
    intro i1 i2 i3 d s hs
    simp only [seedExchangeRates, List.mem_cons, List.not_mem_nil, or_false] at hs
    rcases hs with h | h | h | h <;> subst h <;> norm_num
  cases hany : db.any (fun s => sameTriple s r) with
  | true =>
    have hup : upsertExchangeRate db r =
        db.map (fun s => if sameTriple s r then { s with rate := r.rate } else s) := by
      unfold upsertExchangeRate
      rw [hany]
      rfl
    refine ⟨?_, ?_, ?_, ?_, hseed⟩
    · rw [hup]
      refine List.Pairwise.map _ ?_ h1
      intro a b hab
      by_cases ha : sameTriple a r = true <;> by_cases hb : sameTriple b r = true <;>
        simp [ha, hb, sameTriple_rate_update_left, sameTriple_rate_update_right, hab]
    · rw [hup]
      intro s hs
      rcases List.mem_map.mp hs with ⟨w, hw, hws⟩
      by_cases hwr : sameTriple w r = true
      · rw [if_pos hwr] at hws
        rw [← hws]
        exact h3
      · rw [if_neg hwr] at hws
        rw [← hws]
        exact h2 w hw
    · intro _
      rw [hup, List.length_map]
    · intro _
      unfold insertExchangeRate
      rw [hany]
      rfl
  | false =>
    have hall : ∀ s ∈ db, sameTriple s r = false := by
      intro s hs
      have := List.any_eq_false.mp hany s hs
      simpa using this
    have hup : upsertExchangeRate db r = db ++ [r] := by
      unfold upsertExchangeRate
      rw [hany]
      rfl
    refine ⟨?_, ?_, ?_, ?_, hseed⟩
    · rw [hup]
      rw [tripleUnique, List.pairwise_append]
      exact ⟨h1, List.pairwise_singleton _ _,
        fun a ha b hb => by
          rcases List.mem_singleton.mp hb with rfl
          exact hall a ha⟩
    · rw [hup]
      intro s hs
      rcases List.mem_append.mp hs with h | h
      · exact h2 s h
      · rcases List.mem_singleton.mp h with rfl
        exact h3
    · intro hcontra
      cases hcontra
    · intro hcontra
      cases hcontra

/-- Witness for C5: upserting one positive seed rate into the empty table
keeps the triple unique and every rate positive. -/
theorem exchangeRate_unique_triple_positive_witness :
    tripleUnique (upsertExchangeRate []
      { fromCurrencyId := 0, toCurrencyId := 1, rate := 92 / 100, date := 0 }) ∧
    ratesPositive (upsertExchangeRate []
      { fromCurrencyId := 0, toCurrencyId := 1, rate := 92 / 100, date := 0 }) :=
  ⟨(exchangeRate_unique_triple_positive []
      { fromCurrencyId := 0, toCurrencyId := 1, rate := 92 / 100, date := 0 }
      List.Pairwise.nil (by intro r h; cases h) (by norm_num)).1,
   (exchangeRate_unique_triple_positive []
      { fromCurrencyId := 0, toCurrencyId := 1, rate := 92 / 100, date := 0 }
      List.Pairwise.nil (by intro r h; cases h) (by norm_num)).2.1⟩

/-- A nulled-out transfer reference never reads back as `some`; the other
fields of the row survive `nullifyTransferRef` unchanged. -/
theorem nullifyTransferRef_some (tid : Nat) (t : Transaction) (x : Nat) :
    (nullifyTransferRef tid t).transferToId = some x → t.transferToId = some x := by
  unfold nullifyTransferRef
  by_cases h : (t.transferToId == some tid) = true
  · rw [if_pos h]
    intro hx
    cases hx
  · rw [if_neg h]
    exact id

theorem nullifyTransferRef_id (tid : Nat) (t : Transaction) :
    (nullifyTransferRef tid t).id = t.id := by
  unfold nullifyTransferRef
  by_cases h : (t.transferToId == some tid) = true
  · rw [if_pos h]
  · rw [if_neg h]

/-- C6: in every reachable state of the transactions table the transfer
pairing is one-to-one — no two rows carry the same non-null
`transfer_to_id` — and deleting the target of the owning foreign key keeps
every other row alive with its reference nulled (SET NULL, no cascade),
while removing the target itself. -/
theorem transaction_transfer_pairing (db : List Transaction) (h : TransactionReach db) :
    uniqueTransferTo db ∧
    (∀ tid, ∀ t ∈ db, t.id ≠ tid → nullifyTransferRef tid t ∈ deleteTransaction db tid) ∧
    (∀ tid, ∀ s ∈ deleteTransaction db tid, s.id ≠ tid) := by
  refine ⟨?_, ?_, ?_⟩
  · induction h with
    | empty => exact List.Pairwise.nil
    | ins db0 t db' h0 hins ih =>
      unfold insertTransaction at hins
      by_cases h1 : (db0.any fun s => s.id == t.id) = true
      · rw [if_pos h1] at hins
        cases hins
      · rw [if_neg h1] at hins
        by_cases h2 : (t.transferToId.isSome &&
            db0.any fun s => s.transferToId == t.transferToId) = true
        · rw [if_pos h2] at hins
          cases hins
        · rw [if_neg h2] at hins
          injection hins with hdb'
          subst hdb'
          rw [uniqueTransferTo, List.pairwise_append]
          refine ⟨ih, List.pairwise_singleton _ _, ?_⟩
          intro a ha b hb x hax htt
          rcases List.mem_singleton.mp hb with rfl
          apply h2
          rw [Bool.and_eq_true]
          refine ⟨?_, ?_⟩
          · rw [htt]
            rfl
          · rw [List.any_eq_true]
            refine ⟨a, ha, ?_⟩
            rw [hax, htt]
            exact beq_self_eq_true _
    | del db0 tid h0 ih =>
      unfold deleteTransaction uniqueTransferTo
      refine List.Pairwise.map _ ?_
        (List.Pairwise.sublist (List.filter_sublist db0) ih)
      intro a b hab x hfa hfb
      exact hab x (nullifyTransferRef_some tid a x hfa)
        (nullifyTransferRef_some tid b x hfb)
  · intro tid t ht hne
    unfold deleteTransaction
    apply List.mem_map_of_mem
    rw [List.mem_filter]
    refine ⟨ht, ?_⟩
    simpa using hne
  · intro tid s hs
    unfold deleteTransaction at hs
    rcases List.mem_map.mp hs with ⟨w, hw, hws⟩
    rcases List.mem_filter.mp hw with ⟨_, hwid⟩
    rw [← hws, nullifyTransferRef_id]
    simpa using hwid

/-- Witness for C6: a two-row table in which the second row claims the first
as its transfer target is reachable, and the theorem applies to it. -/
theorem transaction_transfer_pairing_witness :
    uniqueTransferTo [{ id := 1, ttype := TransactionType.INCOME, transferToId := none },
      { id := 2, ttype := TransactionType.TRANSFER, transferToId := some 1 }] :=
  (transaction_transfer_pairing
    [{ id := 1, ttype := TransactionType.INCOME, transferToId := none },
     { id := 2, ttype := TransactionType.TRANSFER, transferToId := some 1 }]
    (TransactionReach.ins
      [{ id := 1, ttype := TransactionType.INCOME, transferToId := none }]
      { id := 2, ttype := TransactionType.TRANSFER, transferToId := some 1 } _
      (TransactionReach.ins []
        { id := 1, ttype := TransactionType.INCOME, transferToId := none } _
        TransactionReach.empty rfl) rfl)).1

/-- Every row produced for the default catalog has a NULL parent. -/
theorem defaultCategoryRows_parent_none (uid : Nat) :
    ∀ row ∈ defaultCategoryRows uid, row.parentId = none := by
  intro row hrow
  rcases List.mem_map.mp hrow with ⟨c, _, hc⟩
  rw [← hc]

/-- Every row produced for the default catalog carries the given user id. -/
theorem defaultCategoryRows_userId (uid : Nat) :
    ∀ row ∈ defaultCategoryRows uid, row.userId = uid := by
  intro row hrow
  rcases List.mem_map.mp hrow with ⟨c, _, hc⟩
  rw [← hc]

/-- A candidate row with a NULL parent never conflicts on the
`(user_id, name, parent_id)` unique index: PostgreSQL treats NULL index
entries as pairwise distinct, so `ON CONFLICT DO NOTHING` skips nothing. -/
theorem categoryKeyConflict_none (c row : Category) (h : row.parentId = none) :
    categoryKeyConflict c row = false := by
  unfold categoryKeyConflict
  rw [h]
  cases c.parentId <;> simp

/-- When every candidate row has a NULL parent, the duplicate-skipping
`createMany` inserts all of them unconditionally. -/
theorem createManyCategories_null_parents (rows : List Category)
    (hnull : ∀ row ∈ rows, row.parentId = none) :
    ∀ existing, createManyCategories existing rows = existing ++ rows := by
  induction rows with
  | nil =>
    intro existing
    simp [createManyCategories]
  | cons row t ih =>
    intro existing
    have hrow : row.parentId = none := hnull row (List.mem_cons_self row t)
    have hany : (existing.any fun c => categoryKeyConflict c row) = false := by
      rw [List.any_eq_false]
      intro c _
      rw [categoryKeyConflict_none c row hrow]
      simp
    rw [createManyCategories, hany]
    simp only [Bool.false_eq_true, if_false]
    rw [ih (fun r hr => hnull r (List.mem_cons_of_mem row hr)) (existing ++ [row])]
    simp

/-- C2 counterexample: seeding the default categories for a brand-new user
inserts fifteen rows, not seventeen — the catalog in the source has four
income, ten expense and one transfer entry. -/
theorem newUser_category_count_counterexample :
    ((syncUser { users := [], categories := [], nextId := 0 } "auth0|demo123"
        emptyTokenPayload).1.categories.filter
      (fun c => c.userId == (syncUser { users := [], categories := [], nextId := 0 }
        "auth0|demo123" emptyTokenPayload).2.id)).length = 15 ∧
    ((syncUser { users := [], categories := [], nextId := 0 } "auth0|demo123"
        emptyTokenPayload).1.categories.filter
      (fun c => c.userId == (syncUser { users := [], categories := [], nextId := 0 }
        "auth0|demo123" emptyTokenPayload).2.id)).length ≠ 17 := by
  constructor
  · rfl
  · intro h
    rw [show (((syncUser { users := [], categories := [], nextId := 0 } "auth0|demo123"
        emptyTokenPayload).1.categories.filter
      (fun c => c.userId == (syncUser { users := [], categories := [], nextId := 0 }
        "auth0|demo123" emptyTokenPayload).2.id)).length) = 15 from rfl] at h
    cases h

/-- C2 amended: for every user created by `syncUser` on first login, the
default-category seeding inserts exactly fifteen categories — four of type
income, ten of type expense and one of type transfer — each uniquely named
within that user's scope. -/
theorem newUser_default_category_set (db : Db) (a : String) (p : TokenPayload)
    (hwf : Db.wf db)
    (hfind : db.users.find? (fun u => u.auth0Id == a) = none) :
    ((syncUser db a p).1.categories.filter
        (fun c => c.userId == (syncUser db a p).2.id)).length = 15 ∧
    ((syncUser db a p).1.categories.filter
        (fun c => c.userId == (syncUser db a p).2.id)).countP
      (fun c => c.ctype == CategoryType.INCOME) = 4 ∧
    ((syncUser db a p).1.categories.filter
        (fun c => c.userId == (syncUser db a p).2.id)).countP
      (fun c => c.ctype == CategoryType.EXPENSE) = 10 ∧
    ((syncUser db a p).1.categories.filter
        (fun c => c.userId == (syncUser db a p).2.id)).countP
      (fun c => c.ctype == CategoryType.TRANSFER) = 1 ∧
    (((syncUser db a p).1.categories.filter
        (fun c => c.userId == (syncUser db a p).2.id)).map
      (fun c => c.name)).Nodup := by
  obtain ⟨hnodup, hlt, hcat⟩ := hwf
  rw [syncUser_create_eq db a p hfind]
  have hrows := createManyCategories_null_parents (defaultCategoryRows db.nextId)
    (defaultCategoryRows_parent_none db.nextId) db.categories
  simp only [hrows, createUserData_id]
  have hfilter : (db.categories ++ defaultCategoryRows db.nextId).filter
      (fun c => c.userId == db.nextId) = defaultCategoryRows db.nextId := by
    rw [List.filter_append]
    have hold : db.categories.filter (fun c => c.userId == db.nextId) = [] := by
      rw [List.filter_eq_nil_iff]
      intro c hc
      have := hcat c hc
      simp [Nat.ne_of_lt this]
    have hnew : (defaultCategoryRows db.nextId).filter (fun c => c.userId == db.nextId) =
        defaultCategoryRows db.nextId := by
      rw [List.filter_eq_self]
      intro c hc
      rw [defaultCategoryRows_userId db.nextId c hc]
      exact beq_self_eq_true _
    rw [hold, hnew]
    rfl
  rw [hfilter]
  refine ⟨?_, ?_, ?_, ?_, ?_⟩
  · rw [defaultCategoryRows, List.length_map]
    rfl
  · rw [defaultCategoryRows, List.countP_map]
    rfl
  · rw [defaultCategoryRows, List.countP_map]
    rfl
  · rw [defaultCategoryRows, List.countP_map]
    rfl
  · have hnames : (defaultCategoryRows db.nextId).map (fun c => c.name) =
        defaultCategories.map (fun c => c.name) := by
      rw [defaultCategoryRows, List.map_map]
      rfl
    rw [hnames]
    decide

/-- Witness for C2 amended: the amended counts hold for the first login of a
concrete user against the empty database. -/
theorem newUser_default_category_set_witness :
    ((syncUser { users := [], categories := [], nextId := 0 } "auth0|demo123"
        emptyTokenPayload).1.categories.filter
      (fun c => c.userId == (syncUser { users := [], categories := [], nextId := 0 }
        "auth0|demo123" emptyTokenPayload).2.id)).countP
      (fun c => c.ctype == CategoryType.INCOME) = 4 :=
  (newUser_default_category_set { users := [], categories := [], nextId := 0 }
    "auth0|demo123" emptyTokenPayload
    ⟨List.nodup_nil, fun u hu => absurd hu (List.not_mem_nil u),
      fun c hc => absurd hc (List.not_mem_nil c)⟩ rfl).2.1

/-- A database holding one user who already owns a "Salary" category, as
created by an earlier run of the seeding. -/
def salaryOnlyDb : Db :=
  { users := [demoSyncUser]
    categories := [{ name := "Salary", ctype := CategoryType.INCOME, color := "#4CAF50",
                     icon := "wallet", description := "Default Salary category",
                     userId := 0, parentId := none }]
    nextId := 1 }

/-- C4: evaluated at the failing input — a user who already owns a "Salary"
category — re-running the default-category seeding creates a duplicate row:
the colliding insertion is not skipped, because the defaults carry a NULL
`parent_id` and the `(user_id, name, parent_id)` unique index treats NULL
entries as distinct, so `ON CONFLICT DO NOTHING` finds no conflict. -/
theorem seeding_rerun_duplicate_salary :
    ((createDefaultCategories salaryOnlyDb 0).categories.countP
      (fun c => c.userId == 0 && c.name == "Salary")) = 2 := by
  show (createManyCategories salaryOnlyDb.categories (defaultCategoryRows 0)).countP
    (fun c => c.userId == 0 && c.name == "Salary") = 2
  rw [createManyCategories_null_parents (defaultCategoryRows 0)
    (defaultCategoryRows_parent_none 0) salaryOnlyDb.categories]
  rw [List.countP_append, defaultCategoryRows, List.countP_map]
  decide

/-- Re-running the default-category seeding never raises (the catch inside
`createDefaultCategories` absorbs any failure) and always appends all
fifteen defaults, leaving the users table alone: rows with NULL `parent_id`
never conflict on the `(user_id, name, parent_id)` unique index. -/
theorem seeding_rerun_no_error_inserts_all (db : Db) (uid : Nat) :
    (createDefaultCategories db uid).categories = db.categories ++ defaultCategoryRows uid ∧
    (createDefaultCategories db uid).categories.length = db.categories.length + 15 ∧
    (createDefaultCategories db uid).users = db.users ∧
    (∀ res : Except String Unit, createDefaultCategoriesResult res = Except.ok ()) := by
  have heq : (createDefaultCategories db uid).categories =
      db.categories ++ defaultCategoryRows uid :=
    createManyCategories_null_parents (defaultCategoryRows uid)
      (defaultCategoryRows_parent_none uid) db.categories
  refine ⟨heq, ?_, rfl, ?_⟩
  · rw [heq, List.length_append]
    rw [show (defaultCategoryRows uid).length = 15 from by
      rw [defaultCategoryRows, List.length_map]; rfl]
  · intro res
    cases res <;> rfl

/-- Rerunning the seeding on the concrete database that already holds a
"Salary" row grows the table by fifteen rows, and the seeding reports
success even for a failing underlying insert. -/
theorem seeding_rerun_no_error_inserts_all_witness :
    (createDefaultCategories salaryOnlyDb 0).categories.length =
      salaryOnlyDb.categories.length + 15 ∧
    createDefaultCategoriesResult (Except.error "unique constraint") = Except.ok () :=
  ⟨(seeding_rerun_no_error_inserts_all salaryOnlyDb 0).2.1,
   (seeding_rerun_no_error_inserts_all salaryOnlyDb 0).2.2.2 (Except.error "unique constraint")⟩

/-- C7: on first login `syncUser` creates the user with email taken from the
claims when truthy and otherwise the synthesized placeholder derived from
the external id; first and last name split from the full-name claim when
the dedicated name claims are falsy; and timezone and locale defaulted to
"UTC" and "en-US" when the corresponding claims are falsy. -/
theorem syncUser_create_field_defaults (db : Db) (a : String) (p : TokenPayload)
    (hfind : db.users.find? (fun u => u.auth0Id == a) = none) :
    (∀ e, p.email = some e → e ≠ "" → (syncUser db a p).2.email = e) ∧
    ((p.email = none ∨ p.email = some "") →
      (syncUser db a p).2.email = a ++ "@wisecalk.com") ∧
    ((p.given_name = none ∨ p.given_name = some "") →
      (syncUser db a p).2.firstName = p.name.map (fun n => (n.splitOn " ").headD "")) ∧
    ((p.family_name = none ∨ p.family_name = some "") →
      (syncUser db a p).2.lastName =
        p.name.map (fun n => String.intercalate " " ((n.splitOn " ").drop 1))) ∧
    ((p.zoneinfo = none ∨ p.zoneinfo = some "") → (syncUser db a p).2.timezone = "UTC") ∧
    ((p.locale = none ∨ p.locale = some "") → (syncUser db a p).2.locale = "en-US") := by
  rw [syncUser_create_eq db a p hfind]
  refine ⟨?_, ?_, ?_, ?_, ?_, ?_⟩
  · intro e he hne
    show jsOrStr p.email (a ++ "@wisecalk.com") = e
    rw [he]
    simp [jsOrStr, hne]
  · rintro (h | h) <;>
      · show jsOrStr p.email (a ++ "@wisecalk.com") = a ++ "@wisecalk.com"
        rw [h]
        simp [jsOrStr]
  · rintro (h | h) <;>
      · show jsOrOpt p.given_name _ = _
        rw [h]
        simp [jsOrOpt]
  · rintro (h | h) <;>
      · show jsOrOpt p.family_name _ = _
        rw [h]
        simp [jsOrOpt]
  · rintro (h | h) <;>
      · show jsOrStr p.zoneinfo "UTC" = "UTC"
        rw [h]
        simp [jsOrStr]
  · rintro (h | h) <;>
      · show jsOrStr p.locale "en-US" = "en-US"
        rw [h]
        simp [jsOrStr]

/-- Witness for C7: a first login with only a full-name claim synthesizes the
placeholder email and splits the name. -/
theorem syncUser_create_field_defaults_witness :
    (syncUser { users := [], categories := [], nextId := 0 } "auth0|abc"
      { emptyTokenPayload with name := some "Ada Spec Lovelace" }).2.email =
      "auth0|abc" ++ "@wisecalk.com" :=
  (syncUser_create_field_defaults { users := [], categories := [], nextId := 0 }
    "auth0|abc" { emptyTokenPayload with name := some "Ada Spec Lovelace" } rfl).2.1
    (Or.inl rfl)

/-- C10: on a subsequent login the update branch of `syncUser` keeps each of
the stored email, firstName, lastName, timezone and locale whenever the
corresponding claim is absent or falsy, leaves the id, auth0Id and
soft-delete marker of the row unchanged, touches no other table, and keeps
every other user row in place. -/
theorem syncUser_update_no_clobber (db : Db) (a : String) (p : TokenPayload) (u : User)
    (hfind : db.users.find? (fun v => v.auth0Id == a) = some u) :
    ((syncUser db a p).2.id = u.id ∧ (syncUser db a p).2.auth0Id = u.auth0Id ∧
      (syncUser db a p).2.deletedAt = u.deletedAt) ∧
    ((p.email = none ∨ p.email = some "") → (syncUser db a p).2.email = u.email) ∧
    ((p.given_name = none ∨ p.given_name = some "") →
      (syncUser db a p).2.firstName = u.firstName) ∧
    ((p.family_name = none ∨ p.family_name = some "") →
      (syncUser db a p).2.lastName = u.lastName) ∧
    ((p.zoneinfo = none ∨ p.zoneinfo = some "") →
      (syncUser db a p).2.timezone = u.timezone) ∧
    ((p.locale = none ∨ p.locale = some "") → (syncUser db a p).2.locale = u.locale) ∧
    (syncUser db a p).1.categories = db.categories ∧
    (syncUser db a p).1.nextId = db.nextId ∧
    (syncUser db a p).1.users.length = db.users.length ∧
    (∀ v ∈ db.users, v.id ≠ u.id → v ∈ (syncUser db a p).1.users) := by
  rw [syncUser_update_eq db a p u hfind]
  refine ⟨⟨rfl, rfl, rfl⟩, ?_, ?_, ?_, ?_, ?_, rfl, rfl, ?_, ?_⟩
  · rintro (h | h) <;>
      · show jsOrStr p.email u.email = u.email
        rw [h]
        simp [jsOrStr]
  · rintro (h | h) <;>
      · show jsOrOpt p.given_name u.firstName = u.firstName
        rw [h]
        simp [jsOrOpt]
  · rintro (h | h) <;>
      · show jsOrOpt p.family_name u.lastName = u.lastName
        rw [h]
        simp [jsOrOpt]
  · rintro (h | h) <;>
      · show jsOrStr p.zoneinfo u.timezone = u.timezone
        rw [h]
        simp [jsOrStr]
  · rintro (h | h) <;>
      · show jsOrStr p.locale u.locale = u.locale
        rw [h]
        simp [jsOrStr]
  · exact List.length_map db.users _
  · intro v hv hne
    have hfv : (if v.id == u.id then updateUserData u p else v) = v := by
      have : (v.id == u.id) = false := by
        rw [beq_eq_false_iff_ne]
        exact hne
      simp [this]
    rw [← hfv]
    exact List.mem_map_of_mem _ hv

/-- Witness for C10: updating the demo user with an all-absent claims payload
keeps every profile field. -/
theorem syncUser_update_no_clobber_witness :
    (syncUser { users := [demoSyncUser], categories := [], nextId := 1 } "auth0|demo123"
      emptyTokenPayload).2.email = demoSyncUser.email :=
  (syncUser_update_no_clobber { users := [demoSyncUser], categories := [], nextId := 1 }
    "auth0|demo123" emptyTokenPayload demoSyncUser rfl).2.1 (Or.inl rfl)

/-- After appending a fresh user and then replacing it by id with a user
carrying the matching identity, exactly one row matches the identity lookup,
provided no old row matched and no old row has the fresh id. -/
theorem countP_auth0_replace (l : List User) (a : String) (u1 u2 : User)
    (hall : ∀ v ∈ l, (v.auth0Id == a) = false)
    (hid : ∀ v ∈ l, (v.id == u1.id) = false)
    (hu2 : (u2.auth0Id == a) = true) :
    ((l ++ [u1]).map (fun v => if v.id == u1.id then u2 else v)).countP
      (fun v => v.auth0Id == a) = 1 := by
  rw [List.map_append]
  rw [List.countP_append]
  have hl : l.map (fun v => if v.id == u1.id then u2 else v) = l.map id :=
    List.map_congr_left (fun v hv => by simp [hid v hv])
  rw [hl, List.map_id]
  have h0 : l.countP (fun v => v.auth0Id == a) = 0 :=
    List.countP_eq_zero.mpr (fun v hv => by simp [hall v hv])
  rw [h0]
  have h1 : [u1].map (fun v => if v.id == u1.id then u2 else v) = [u2] := by simp
  rw [h1]
  simp [List.countP_cons, hu2]

/-- C1: calling `syncUser` twice with the same external identity creates at
most one User row — the first call adds at most one row, the second call
performs only an update: it leaves the row count and the categories table
unchanged and returns a user with the same id and the same auth0Id; when no
row with that identity existed beforehand, exactly one exists afterwards. -/
theorem syncUser_twice_single_row (db : Db) (a : String) (p1 p2 : TokenPayload)
    (hwf : Db.wf db) :
    (syncUser (syncUser db a p1).1 a p2).1.users.length =
      (syncUser db a p1).1.users.length ∧
    (syncUser db a p1).1.users.length ≤ db.users.length + 1 ∧
    (syncUser (syncUser db a p1).1 a p2).1.categories =
      (syncUser db a p1).1.categories ∧
    (syncUser (syncUser db a p1).1 a p2).2.id = (syncUser db a p1).2.id ∧
    (syncUser (syncUser db a p1).1 a p2).2.auth0Id = a ∧
    (syncUser db a p1).2.auth0Id = a ∧
    (db.users.countP (fun u => u.auth0Id == a) = 0 →
      (syncUser (syncUser db a p1).1 a p2).1.users.countP
        (fun u => u.auth0Id == a) = 1) := by
  obtain ⟨hnodup, hlt, hcat⟩ := hwf
  cases hfind : db.users.find? (fun u => u.auth0Id == a) with
  | none =>
    have h1 := syncUser_create_eq db a p1 hfind
    have hfind2 : (db.users ++ [createUserData a p1 db.nextId]).find?
        (fun v => v.auth0Id == a) = some (createUserData a p1 db.nextId) := by
      rw [List.find?_append, hfind]
      simp [List.find?_cons, createUserData_auth0Id]
    have h2 := syncUser_update_eq
      { users := db.users ++ [createUserData a p1 db.nextId]
        categories := createManyCategories db.categories (defaultCategoryRows db.nextId)
        nextId := db.nextId + 1 } a p2 (createUserData a p1 db.nextId) hfind2
    refine ⟨?_, ?_, ?_, ?_, ?_, ?_, ?_⟩
    · simp only [h1, h2, List.length_map]
    · simp only [h1, List.length_append]
      simp
    · simp only [h1, h2]
    · simp only [h1, h2, updateUserData_id]
    · simp only [h1, h2, updateUserData_auth0Id, createUserData_auth0Id]
    · simp only [h1, createUserData_auth0Id]
    · intro _
      simp only [h1, h2, createUserData_id]
      have happly := countP_auth0_replace db.users a (createUserData a p1 db.nextId)
        (updateUserData (createUserData a p1 db.nextId) p2)
        (fun v hv => by
          have := List.find?_eq_none.mp hfind v hv
          simpa using this)
        (fun v hv => by
          rw [createUserData_id, beq_eq_false_iff_ne]
          exact Nat.ne_of_lt (hlt v hv))
        (by rw [updateUserData_auth0Id, createUserData_auth0Id]
            exact beq_self_eq_true a)
      simpa [createUserData_id] using happly
  | some u =>
    have hpu : (u.auth0Id == a) = true := by simpa using List.find?_some hfind
    have hua : u.auth0Id = a := by simpa using hpu
    have h1 := syncUser_update_eq db a p1 u hfind
    have hfind2 := find?_map_replace a u (updateUserData u p1)
      (updateUserData_auth0Id u p1) db.users hfind
    have h2 := syncUser_update_eq
      { users := db.users.map (fun v => if v.id == u.id then updateUserData u p1 else v)
        categories := db.categories, nextId := db.nextId } a p2
      (updateUserData u p1) hfind2
    refine ⟨?_, ?_, ?_, ?_, ?_, ?_, ?_⟩
    · simp only [h1, h2, List.length_map]
    · simp only [h1, List.length_map]
      exact Nat.le_succ _
    · simp only [h1, h2]
    · simp only [h1, h2, updateUserData_id]
    · simp only [h1, h2, updateUserData_auth0Id]
      exact hua
    · simp only [h1, updateUserData_auth0Id]
      exact hua
    · intro h0
      exact absurd hpu
        (List.countP_eq_zero.mp h0 u (List.mem_of_find?_eq_some hfind))

/-- Witness for C1: two logins of the same fresh identity against the empty
database leave exactly one matching User row. -/
theorem syncUser_twice_single_row_witness :
    ((syncUser (syncUser { users := [], categories := [], nextId := 0 } "auth0|demo123"
        emptyTokenPayload).1 "auth0|demo123" emptyTokenPayload).1.users.countP
      (fun u => u.auth0Id == "auth0|demo123")) = 1 :=
  (syncUser_twice_single_row { users := [], categories := [], nextId := 0 } "auth0|demo123"
    emptyTokenPayload emptyTokenPayload
    ⟨List.nodup_nil, fun u hu => absurd hu (List.not_mem_nil u),
      fun c hc => absurd hc (List.not_mem_nil c)⟩).2.2.2.2.2.2 rfl
